import Mathlib

/-!
Verification of the Webhook Ingestion and Domain Event Translation Gateway
of the glam-app repository.

The embedding below translates the webhook data model, the record store
uniqueness behaviour, the BFF relay code (apps/shopify-app/app/lib/apiClient.js,
apps/shopify-app/app/routes/webhooks.relay.jsx) and, where the service
implementation itself is not present in the repository, models the pipeline
from the specification and the in-repo service documentation
(services/webhook-service/README.md with its SQL migration, and the unified
webhook-service README).

The file is organized as definitions first, theorems second.
-/

namespace GlamApp

/-! ## Data model: WebhookEntry (spec section 3, SQL migration in
services/webhook-service/README.md lines 276-301) -/

/-- Status values of a stored webhook entry, from the spec data model and the
SQL default value RECEIVED. -/
inductive EntryStatus
  | received
  | mapped
  | published
  | deadLettered
  | duplicate
deriving DecidableEq, Repr

/-- One row of the webhook_entries table, per the SQL migration: id, platform,
webhook_id, topic, shop_domain, payload, status, processing_attempts,
error_message.  Identifiers are abstracted to Nat, the JSONB payload to an
opaque String. -/
structure WebhookEntry where
  id : Nat
  platform : String
  webhook_id : String
  topic : String
  shop_domain : String
  payload : String
  status : EntryStatus
  processing_attempts : Nat
  error_message : Option String
deriving DecidableEq, Repr

/-- Embeds the record-store insert under the unique index
webhook_entries_webhook_id_key ON webhook_entries(webhook_id) from the SQL
migration, together with the documented duplicate handling of part_031
(idempotency via DB unique constraint on webhook_id; a delivery whose
webhook_id is already stored adds no row and is reported as a duplicate).
Returns the new store contents and whether a row was inserted. -/
def insertEntry (store : List WebhookEntry) (e : WebhookEntry) :
    List WebhookEntry × Bool :=
  if store.any (fun x => x.webhook_id == e.webhook_id) then (store, false)
  else (e :: store, true)

/-- A first concrete entry, platform shopify, delivery id wh-1. -/
def entryA : WebhookEntry :=
  { id := 0, platform := "shopify", webhook_id := "wh-1",
    topic := "orders/create", shop_domain := "a.example", payload := "p0",
    status := .received, processing_attempts := 0, error_message := none }

/-- A second concrete entry with the same external webhook id as entryA but a
different platform. -/
def entryB : WebhookEntry :=
  { entryA with id := 1, platform := "stripe" }

/-! ## Signature verification (spec section 4.1, services/webhook-service/README.md
HMAC Validation; implementation not under src/) -/

/-- Modelled from the spec: the webhook-service HMAC verification routine is
not under src/; the README gives the algorithm (hmac_sha256 of the raw body
against the primary secret, then against the rotation secret if configured,
succeeding on the first match).  The keyed digest itself is abstracted as a
function parameter hm.  Returns the index of the secret that validated, per
the VerificationResult usedSecretIndex contract, or none. -/
def verifyHmac (hm : String → String → String) (primary : String)
    (rotation : Option String) (rawBody headerHmac : String) : Option Nat :=
  if hm primary rawBody = headerHmac then some 0
  else
    match rotation with
    | some r => if hm r rawBody = headerHmac then some 1 else none
    | none => none

/-- Modelled from the spec: the HTTP status the direct-ingress endpoint
returns for the signature-verification stage, 401 on failure of both
secrets (README error table row INVALID_SIGNATURE). -/
def hmacIngressStatus (hm : String → String → String) (primary : String)
    (rotation : Option String) (rawBody headerHmac : String) : Nat :=
  if (verifyHmac hm primary rotation rawBody headerHmac).isSome then 200
  else 401

/-- A concrete stand-in keyed digest used only to exercise the verification
theorems at concrete inputs. -/
def hmDemo (key body : String) : String := key ++ ":" ++ body

/-! ## Relay authentication: the BFF token signer is real code
(apps/shopify-app/app/lib/apiClient.js), the service-side check is documented
in part_031 -/

/-- Claims of the internal JWT minted by the BFF. -/
structure JwtClaims where
  sub : String
  scope : String
  platform : String
deriving DecidableEq, Repr

/-- Embeds signJwt of apps/shopify-app/app/lib/apiClient.js lines 18-34: the
token carries sub = shop, scope = bff:api:access, platform = shopify. -/
def signJwt (shop : String) : JwtClaims :=
  { sub := shop, scope := "bff:api:access", platform := "shopify" }

/-- Modelled from the spec: the webhook-service side verification is not under
src/; part_031 documents that the Authorization JWT must have scope bff:call
and that a scope or shop-domain mismatch is answered 403. -/
def requiredScope : String := "bff:call"

/-- Modelled from the spec: relay authentication per part_031 lines 44-61,
403 when the scope is not the required capability or the subject does not
match the shop-domain header, 200 otherwise. -/
def verifyRelayAuth (claims : JwtClaims) (shopDomainHeader : String) : Nat :=
  if claims.scope ≠ requiredScope then 403
  else if claims.sub ≠ shopDomainHeader then 403
  else 200

/-! ## Topic mapping and the ingestion pipeline (spec sections 4.4 and 4.6;
implementation not under src/, event table documented in part_031) -/

/-- Modelled from the spec: the topic mapper implementation is not under src/;
the table is the Event Mapping table of part_031 lines 113-131, one row per
known Shopify topic, unknown topics mapping to none. -/
def mapTopic : String → Option String
  | "app/uninstalled" => some "app_uninstalled"
  | "orders/create" => some "order_created"
  | "app_subscriptions/update" => some "app_subscription_updated"
  | "app_purchases_one_time/update" => some "app_purchase_updated"
  | "products/create" => some "catalog_product_event (created)"
  | "products/update" => some "catalog_product_event (updated)"
  | "products/delete" => some "catalog_product_event (deleted)"
  | "collections/create" => some "catalog_collection_event (created)"
  | "collections/update" => some "catalog_collection_event (updated)"
  | "collections/delete" => some "catalog_collection_event (deleted)"
  | "inventory_levels/update" => some "inventory_updated"
  | "customers/data_request" => some "gdpr_data_request"
  | "customers/redact" => some "gdpr_customer_redact"
  | "shop/redact" => some "gdpr_shop_redact"
  | _ => none

/-- One inbound webhook delivery as the service receives it: platform tag,
platform-assigned delivery id, topic, tenant domain, raw payload and the
correlation id taken from the X-Correlation-ID header. -/
structure Delivery where
  platform : String
  webhook_id : String
  topic : String
  shop_domain : String
  payload : String
  correlation_id : String
deriving DecidableEq, Repr

/-- A domain event published on the bus: mapped event name, tenant, payload
and the correlation id carried over from the delivery. -/
structure DomainEvent where
  name : String
  shop_domain : String
  payload : String
  correlation_id : String
deriving DecidableEq, Repr

/-- The HTTP acknowledgment of the webhook endpoint, per part_031: 200 with a
success body naming the stored webhook id, or an error status. -/
structure AckResponse where
  status : Nat
  success : Bool
  webhook_id : Option Nat
deriving DecidableEq, Repr

/-- Observable state of the gateway: the record store, the published events
and the warning log. -/
structure GatewayState where
  store : List WebhookEntry
  events : List DomainEvent
  warnings : List String
deriving DecidableEq, Repr

/-- The gateway state before any delivery. -/
def emptyState : GatewayState := { store := [], events := [], warnings := [] }

/-- Lookup of a stored entry by external webhook id, the duplicate check
backing the unique index on webhook_id. -/
def findById (store : List WebhookEntry) (wid : String) :
    Option WebhookEntry :=
  store.find? (fun e => e.webhook_id == wid)

/-- Modelled from the spec: the ingestion pipeline orchestrator of the webhook
service is not under src/; the flow follows part_031 lines 76-80 and spec
section 4.6.  A delivery whose webhook_id is already stored is acknowledged
200 without any new row or event; otherwise, when the store write succeeds the
entry is persisted, the topic is mapped (unknown topics log a warning and
publish nothing, status MAPPED), a mapped event is published when the bus call
succeeds (status PUBLISHED) and dead-lettered when it fails (status
DEAD_LETTERED, error recorded, attempts incremented) — in every persisted case
the response is the 200 success acknowledgment.  A store failure surfaces as a
retriable 503. -/
def processWebhook (st : GatewayState) (d : Delivery)
    (persistOk busOk : Bool) : GatewayState × AckResponse :=
  match findById st.store d.webhook_id with
  | some e => (st, { status := 200, success := true, webhook_id := some e.id })
  | none =>
    if persistOk then
      let newId := st.store.length
      match mapTopic d.topic with
      | none =>
        ({ store :=
            { id := newId, platform := d.platform, webhook_id := d.webhook_id,
              topic := d.topic, shop_domain := d.shop_domain,
              payload := d.payload, status := .mapped,
              processing_attempts := 0, error_message := none } :: st.store,
           events := st.events,
           warnings := ("unknown topic " ++ d.topic) :: st.warnings },
         { status := 200, success := true, webhook_id := some newId })
      | some evName =>
        if busOk then
          ({ store :=
              { id := newId, platform := d.platform,
                webhook_id := d.webhook_id, topic := d.topic,
                shop_domain := d.shop_domain, payload := d.payload,
                status := .published, processing_attempts := 1,
                error_message := none } :: st.store,
             events :=
              { name := evName, shop_domain := d.shop_domain,
                payload := d.payload,
                correlation_id := d.correlation_id } :: st.events,
             warnings := st.warnings },
           { status := 200, success := true, webhook_id := some newId })
        else
          ({ store :=
              { id := newId, platform := d.platform,
                webhook_id := d.webhook_id, topic := d.topic,
                shop_domain := d.shop_domain, payload := d.payload,
                status := .deadLettered, processing_attempts := 1,
                error_message := some "publish failed" } :: st.store,
             events := st.events,
             warnings := st.warnings },
           { status := 200, success := true, webhook_id := some newId })
    else
      (st, { status := 503, success := false, webhook_id := none })

/-- A concrete delivery whose topic has no row in the mapping table. -/
def unknownTopicDelivery : Delivery :=
  { platform := "shopify", webhook_id := "wh-unknown",
    topic := "fulfillments/create", shop_domain := "a.example",
    payload := "p1", correlation_id := "corr_a" }

/-! ## Relay front door (real code: apps/shopify-app/app/lib/apiClient.js and
apps/shopify-app/app/routes/webhooks.relay.jsx) -/

/-- Suffix test on the character sequence of a string, embedding the anchored
regular-expression test of the relay route. -/
def strEndsWith (s suffix : String) : Bool :=
  suffix.data.isSuffixOf s.data

/-- Embeds the shop-masking expression of webhooks.relay.jsx line 29: the
anchored replacement of a trailing .myshopify.com by three asterisks, leaving
other strings unchanged. -/
def maskShop (shop : String) : String :=
  if strEndsWith shop ".myshopify.com" then
    String.mk (shop.data.take (shop.data.length - 14) ++ String.data "***")
  else shop

/-- The timeout in milliseconds armed by callAndForget in apiClient.js line
85 before the relay fetch is aborted. -/
def relayTimeoutMs : Nat := 1500

/-- What the fire-and-forget dispatch leaves behind: the bound on its running
time and the log lines it wrote.  No error value is part of this type, so a
fetch failure cannot reach the dispatching caller. -/
structure DispatchResult where
  timeoutMs : Nat
  loggedErrors : List String
deriving DecidableEq, Repr

/-- Embeds callAndForget of apiClient.js lines 81-93: the fetch runs under an
abort controller armed at 1500 ms and its promise rejection is consumed by a
catch handler that only logs, so the function returns to its caller without
awaiting and without propagating any failure. -/
def callAndForget (fetchOutcome : Except String Unit) : DispatchResult :=
  { timeoutMs := relayTimeoutMs,
    loggedErrors :=
      match fetchOutcome with
      | .ok _ => []
      | .error e => ["API call failed: " ++ e] }

/-- The JSON body and status the relay route answers Shopify with. -/
structure RelayResponse where
  status : Nat
  relayed : Bool
  topic : String
  shop : String
deriving DecidableEq, Repr

/-- Embeds the action of webhooks.relay.jsx lines 6-34: after authentication
the webhook is relayed fire-and-forget through callAndForget, and the response
is always status 200 with relayed true, the topic, and the masked shop
domain. -/
def relayAction (topic shop : String) (fetchOutcome : Except String Unit) :
    RelayResponse × DispatchResult :=
  ({ status := 200, relayed := true, topic := topic, shop := maskShop shop },
   callAndForget fetchOutcome)

/-! ## Repeated deliveries -/

/-- Repeated processing of one and the same delivery: each round takes the
next bus outcome from the list, threading the gateway state, and collects the
responses. -/
def processRepeated (d : Delivery) : GatewayState → List Bool →
    GatewayState × List AckResponse
  | st, [] => (st, [])
  | st, b :: bs =>
    let next := processWebhook st d true b
    let rest := processRepeated d next.1 bs
    (rest.1, next.2 :: rest.2)

/-- The row a fresh delivery creates in the empty store, parameterized by the
terminal status, attempt count and error detail of its branch. -/
def freshEntry (d : Delivery) (s : EntryStatus) (attempts : Nat)
    (err : Option String) : WebhookEntry :=
  { id := 0, platform := d.platform, webhook_id := d.webhook_id,
    topic := d.topic, shop_domain := d.shop_domain, payload := d.payload,
    status := s, processing_attempts := attempts, error_message := err }

/-! ## Direct-ingress status contract (implementation not under src/,
status table in services/webhook-service/README.md lines 204-213 and
part_031 lines 55-61) -/

/-- The validation-relevant shape of one direct-ingress request. -/
structure IngressRequest where
  contentTypeJson : Bool
  bodySize : Nat
  hasAllHeaders : Bool
  signatureValid : Bool
  payloadWellFormed : Bool
deriving DecidableEq, Repr

/-- The configured body size limit, 2097152 bytes per the service
configuration. -/
def bodyLimitBytes : Nat := 2097152

/-- Modelled from the spec: the direct-ingress handler is not under src/; the
status per stage follows the README processing flow and error table:
400 INVALID_CONTENT_TYPE and MISSING_HEADERS, 413 PAYLOAD_TOO_LARGE,
401 INVALID_SIGNATURE, 422 MALFORMED_PAYLOAD, 200 on success and on
duplicate. -/
def directIngressStatus (r : IngressRequest) : Nat :=
  if !r.contentTypeJson then 400
  else if r.bodySize > bodyLimitBytes then 413
  else if !r.hasAllHeaders then 400
  else if !r.signatureValid then 401
  else if !r.payloadWellFormed then 422
  else 200

/-- A request that is well-formed in every respect except that its body
exceeds the 2 MiB limit by one byte. -/
def oversizedRequest : IngressRequest :=
  { contentTypeJson := true, bodySize := 2097153, hasAllHeaders := true,
    signatureValid := true, payloadWellFormed := true }

/-! ## Circuit-breaker-guarded publisher (implementation not under src/,
documented in part_032 lines 52-55 and spec section 4.5) -/

/-- Breaker configuration: size N of the sliding outcome window and the
cooldown measured in short-circuited attempts. -/
structure BreakerConfig where
  windowSize : Nat
  cooldown : Nat
deriving DecidableEq, Repr

/-- Modelled from the spec: breaker state per destination subject — CLOSED
with its sliding window of recent outcomes (true = the publish succeeded),
OPEN with the remaining cooldown, and HALF_OPEN awaiting the single trial
call.  OPEN with cooldown zero behaves as HALF_OPEN: the cooldown has
elapsed. -/
inductive BreakerState
  | closed (window : List Bool)
  | opened (cooldownLeft : Nat)
  | halfOpen
deriving DecidableEq, Repr

/-- What one publish attempt did: a real bus call with its outcome, or a
short-circuit straight to the dead-letter path without invoking the bus. -/
inductive PublishAction
  | attempted (ok : Bool)
  | shortCircuit
deriving DecidableEq, Repr

/-- Number of failed outcomes recorded in a window. -/
def countFails (w : List Bool) : Nat := w.countP (fun ok => !ok)

/-- Modelled from the spec: the trip condition — the window holds the last N
attempts and at least half of them failed. -/
def tripsOpen (cfg : BreakerConfig) (w : List Bool) : Bool :=
  w.length == cfg.windowSize
    && decide (cfg.windowSize ≤ 2 * countFails w)

/-- Modelled from the spec: one publish attempt through the breaker.  CLOSED
invokes the bus, slides the outcome into the window and trips to OPEN when the
trip condition holds; OPEN short-circuits to the dead-letter path without
invoking the bus while cooling down; once the cooldown has elapsed the breaker
is HALF_OPEN and the single trial call closes it on success or reopens it for
a full cooldown on failure. -/
def breakerStep (cfg : BreakerConfig) (s : BreakerState) (busOk : Bool) :
    BreakerState × PublishAction :=
  match s with
  | .closed w =>
    if tripsOpen cfg ((busOk :: w).take cfg.windowSize) then
      (.opened cfg.cooldown, .attempted busOk)
    else (.closed ((busOk :: w).take cfg.windowSize), .attempted busOk)
  | .opened (k+1) => (.opened k, .shortCircuit)
  | .opened 0 =>
    if busOk then (.closed [], .attempted true)
    else (.opened cfg.cooldown, .attempted false)
  | .halfOpen =>
    if busOk then (.closed [], .attempted true)
    else (.opened cfg.cooldown, .attempted false)

/-- A run of publish attempts through the breaker, collecting the action of
each attempt. -/
def breakerRun (cfg : BreakerConfig) : BreakerState → List Bool →
    BreakerState × List PublishAction
  | s, [] => (s, [])
  | s, b :: bs =>
    let first := breakerStep cfg s b
    let rest := breakerRun cfg first.1 bs
    (rest.1, first.2 :: rest.2)

/-! ## Correlation identifiers (real code in apiClient.js lines 4-7 and
50-72, service-side propagation documented in part_032 line 60) -/

/-- Embeds generateCorrelationId of apiClient.js lines 5-7: a corr_ prefix
followed by up to twelve hexadecimal digits of fresh randomness; the call to
the random number generator is modelled by the seed parameter. -/
def generateCorrelationId (seed : Nat) : String :=
  "corr_" ++ String.mk (Nat.toDigits 16 (seed % 16 ^ 12))

/-- The headers attached to one relayed webhook request by the BFF. -/
structure WebhookHeaders where
  authorization : JwtClaims
  contentTypeJson : Bool
  shopPlatform : String
  shopDomain : String
  webhookPlatform : String
  correlationId : String
  webhookTopic : Option String
  webhookId : Option String
deriving DecidableEq, Repr

/-- Embeds addWebhookHeaders of apiClient.js lines 50-72: a fresh token from
signJwt, fixed platform tags, a correlation id generated on the spot from
fresh randomness, and the optional topic and webhook-id headers. -/
def addWebhookHeaders (shop : String) (webhookId topic : Option String)
    (seed : Nat) : WebhookHeaders :=
  { authorization := signJwt shop, contentTypeJson := true,
    shopPlatform := "shopify", shopDomain := shop,
    webhookPlatform := "shopify",
    correlationId := generateCorrelationId seed,
    webhookTopic := topic, webhookId := webhookId }

/-- A concrete order-created delivery carrying the relay-minted correlation
id. -/
def orderDelivery : Delivery :=
  { platform := "shopify", webhook_id := "wh-1", topic := "orders/create",
    shop_domain := "a.example", payload := "p2",
    correlation_id := "corr_bff" }

/-! ## Helper lemmas -/

/-- Helper: a list whose last element differs from the last element of another
list is not a suffix of it. -/
theorem isSuffixOf_eq_false_of_getLast_ne (l₁ l₂ : List Char) (c₁ c₂ : Char)
    (h₁ : l₁.getLast? = some c₁) (h₂ : l₂.getLast? = some c₂) (hne : c₁ ≠ c₂) :
    l₁.isSuffixOf l₂ = false := by
  by_contra h
  rw [Bool.not_eq_false, List.isSuffixOf_iff_suffix] at h
  obtain ⟨t, rfl⟩ := h
  have hl₁ : l₁ ≠ [] := by
    intro hnil
    rw [hnil] at h₁
    exact Option.noConfusion h₁
  rw [List.getLast?_append_of_ne_nil t hl₁, h₁] at h₂
  exact hne (Option.some.injEq c₁ c₂ ▸ congrArg id (h₂.symm ▸ rfl))

/-- Helper: the masked shop domain never ends with .myshopify.com. -/
theorem maskShop_not_myshopify (shop : String) :
    strEndsWith (maskShop shop) ".myshopify.com" = false := by
  unfold maskShop
  cases hb : strEndsWith shop ".myshopify.com" with
  | false => simp [hb]
  | true =>
    simp only [hb, if_pos]
    unfold strEndsWith
    refine isSuffixOf_eq_false_of_getLast_ne _ _ 'm' '*' (by decide) ?_
      (by decide)
    show (shop.data.take (shop.data.length - 14) ++
      String.data "***").getLast? = some '*'
    rw [List.getLast?_append_of_ne_nil _ (by decide)]
    decide

/-- Helper: a delivery whose webhook id is already stored changes nothing and
is answered with the success acknowledgment naming the stored row. -/
theorem processWebhook_duplicate (st : GatewayState) (d : Delivery)
    (p b : Bool) (v : WebhookEntry)
    (h : findById st.store d.webhook_id = some v) :
    processWebhook st d p b =
      (st, { status := 200, success := true, webhook_id := some v.id }) := by
  simp [processWebhook, h]

/-- Helper: every round after the webhook id is stored leaves the state
unchanged and answers the same success acknowledgment. -/
theorem processRepeated_stable (d : Delivery) (st : GatewayState)
    (bs : List Bool) (v : WebhookEntry)
    (h : findById st.store d.webhook_id = some v) :
    processRepeated d st bs =
      (st, List.replicate bs.length
        { status := 200, success := true, webhook_id := some v.id }) := by
  induction bs with
  | nil => simp [processRepeated]
  | cons b bs ih =>
    simp [processRepeated, processWebhook_duplicate st d true b v h, ih,
      List.replicate_succ]

/-- Helper: the first delivery from the empty state stores exactly one row
carrying the delivery id, publishes at most one event, and is acknowledged
with success. -/
theorem first_delivery_fresh (d : Delivery) (b : Bool) :
    ∃ v : WebhookEntry,
      v.webhook_id = d.webhook_id
      ∧ (processWebhook emptyState d true b).1.store = [v]
      ∧ (processWebhook emptyState d true b).1.events.length ≤ 1
      ∧ (processWebhook emptyState d true b).2.status = 200
      ∧ (processWebhook emptyState d true b).2.success = true := by
  cases hm : mapTopic d.topic with
  | none =>
    refine ⟨freshEntry d .mapped 0 none, rfl, ?_, ?_, ?_, ?_⟩ <;>
      simp [processWebhook, findById, emptyState, hm, freshEntry]
  | some ev =>
    cases b with
    | true =>
      refine ⟨freshEntry d .published 1 none, rfl, ?_, ?_, ?_, ?_⟩ <;>
        simp [processWebhook, findById, emptyState, hm, freshEntry]
    | false =>
      refine ⟨freshEntry d .deadLettered 1 (some "publish failed"), rfl,
          ?_, ?_, ?_, ?_⟩ <;>
        simp [processWebhook, findById, emptyState, hm, freshEntry]

/-- Helper: an OPEN breaker short-circuits every one of the next
cooldown-many attempts and ends with the cooldown elapsed. -/
theorem breakerRun_cooldown (cfg : BreakerConfig) (bs : List Bool) :
    breakerRun cfg (.opened bs.length) bs =
      (.opened 0, List.replicate bs.length .shortCircuit) := by
  induction bs with
  | nil => simp [breakerRun]
  | cons b bs ih =>
    simp [breakerRun, breakerStep, ih, List.replicate_succ]

/-! ## Claim C4: store uniqueness key -/

/-- C4 counterexample: the claim asserts uniqueness is keyed on the pair
(platform, external_webhook_id), so the same external webhook identifier could
coexist under two different platforms.  Under the unique index of the SQL
migration, which is on webhook_id alone, inserting a second entry with the same
webhook_id but a different platform is refused: the store keeps a single row,
refuting the per-platform-pair reading at this explicit input. -/
theorem store_pair_uniqueness_refuted :
    ((insertEntry (insertEntry [] entryA).1 entryB).1.length = 1)
    ∧ ((insertEntry (insertEntry [] entryA).1 entryB).2 = false)
    ∧ entryA.platform ≠ entryB.platform
    ∧ entryA.webhook_id = entryB.webhook_id := by
  decide

/-- C4 amended: the record store enforces a uniqueness constraint keyed on
external_webhook_id alone, globally across platforms; a second delivery with
the same external_webhook_id, whatever its platform, creates no new row and is
reported as a duplicate. -/
theorem store_unique_on_webhook_id (store : List WebhookEntry)
    (e : WebhookEntry)
    (h : store.any (fun x => x.webhook_id == e.webhook_id) = true) :
    insertEntry store e = (store, false) := by
  simp [insertEntry, h]

/-- Witness for store_unique_on_webhook_id at a concrete store holding entryA
and a second delivery entryB sharing the webhook id under another platform. -/
theorem store_unique_on_webhook_id_witness :
    insertEntry [entryA] entryB = ([entryA], false) :=
  store_unique_on_webhook_id [entryA] entryB (by decide)

/-! ## Claim C2: HMAC dual-secret verification -/

/-- C2: signature verification accepts exactly the payloads whose keyed digest
of the raw bytes matches one of the configured secrets, trying the primary
secret first (a primary match yields secret index 0 regardless of the rotation
secret) and succeeding on the first match; a payload signed with neither
secret is rejected with 401. -/
theorem hmac_dual_secret_verification (hm : String → String → String)
    (primary r rawBody headerHmac : String) :
    ((verifyHmac hm primary (some r) rawBody headerHmac).isSome = true ↔
      (hm primary rawBody = headerHmac ∨ hm r rawBody = headerHmac))
    ∧ ((verifyHmac hm primary none rawBody headerHmac).isSome = true ↔
      hm primary rawBody = headerHmac)
    ∧ (hm primary rawBody = headerHmac →
      verifyHmac hm primary (some r) rawBody headerHmac = some 0)
    ∧ (hm primary rawBody ≠ headerHmac → hm r rawBody ≠ headerHmac →
      hmacIngressStatus hm primary (some r) rawBody headerHmac = 401) := by
  refine ⟨?_, ?_, ?_, ?_⟩
  · constructor
    · intro h
      by_cases hp : hm primary rawBody = headerHmac
      · exact Or.inl hp
      · refine Or.inr ?_
        by_contra hr
        simp [verifyHmac, hp, hr] at h
    · intro h
      rcases h with hp | hr
      · simp [verifyHmac, hp]
      · by_cases hp : hm primary rawBody = headerHmac
        · simp [verifyHmac, hp]
        · simp [verifyHmac, hp, hr]
  · constructor
    · intro h
      by_contra hp
      simp [verifyHmac, hp] at h
    · intro hp
      simp [verifyHmac, hp]
  · intro hp
    simp [verifyHmac, hp]
  · intro hp hr
    simp [hmacIngressStatus, verifyHmac, hp, hr]

/-- Witness for hmac_dual_secret_verification: a payload signed with the
primary secret validates with secret index 0, and a payload signed with
neither secret is answered 401. -/
theorem hmac_dual_secret_verification_witness :
    verifyHmac hmDemo "p" (some "q") "body" "p:body" = some 0
    ∧ hmacIngressStatus hmDemo "p" (some "q") "body" "zz" = 401 :=
  ⟨(hmac_dual_secret_verification hmDemo "p" "q" "body" "p:body").2.2.1
      (by decide),
   (hmac_dual_secret_verification hmDemo "p" "q" "body" "zz").2.2.2
      (by decide) (by decide)⟩

/-! ## Claim C5: relay token scope -/

/-- C5 (code bug): the BFF signs every relayed webhook request with scope
bff:api:access while the webhook service documents the single required
capability string as bff:call, so a well-formed relay fails scope verification
with 403 instead of passing it. -/
theorem relay_token_scope_mismatch :
    (signJwt "test-shop.myshopify.com").scope = "bff:api:access"
    ∧ requiredScope = "bff:call"
    ∧ (signJwt "test-shop.myshopify.com").scope ≠ requiredScope
    ∧ verifyRelayAuth (signJwt "test-shop.myshopify.com")
        "test-shop.myshopify.com" = 403 := by
  decide

/-! ## Claim C7: unknown topic tolerance -/

/-- C7: a well-authenticated webhook whose topic is absent from the mapping
table is still persisted with status MAPPED, acknowledged 200, logs a warning
and publishes zero domain events. -/
theorem unknown_topic_tolerated (st : GatewayState) (d : Delivery)
    (busOk : Bool) (hmap : mapTopic d.topic = none)
    (hnew : findById st.store d.webhook_id = none) :
    (processWebhook st d true busOk).1.store =
      { id := st.store.length, platform := d.platform,
        webhook_id := d.webhook_id, topic := d.topic,
        shop_domain := d.shop_domain, payload := d.payload,
        status := .mapped, processing_attempts := 0,
        error_message := none } :: st.store
    ∧ (processWebhook st d true busOk).2.status = 200
    ∧ (processWebhook st d true busOk).2.success = true
    ∧ (processWebhook st d true busOk).1.events = st.events
    ∧ (processWebhook st d true busOk).1.warnings =
        ("unknown topic " ++ d.topic) :: st.warnings := by
  simp [processWebhook, hnew, hmap]

/-- Witness for unknown_topic_tolerated at the concrete unknown-topic delivery
against the empty gateway state. -/
theorem unknown_topic_tolerated_witness :
    (processWebhook emptyState unknownTopicDelivery true true).1.store =
      { id := 0, platform := "shopify", webhook_id := "wh-unknown",
        topic := "fulfillments/create", shop_domain := "a.example",
        payload := "p1", status := .mapped, processing_attempts := 0,
        error_message := none } :: []
    ∧ (processWebhook emptyState unknownTopicDelivery true true).2.status = 200
    ∧ (processWebhook emptyState unknownTopicDelivery true true).2.success
        = true
    ∧ (processWebhook emptyState unknownTopicDelivery true true).1.events = []
    ∧ (processWebhook emptyState unknownTopicDelivery true true).1.warnings =
        ("unknown topic " ++ "fulfillments/create") :: [] :=
  unknown_topic_tolerated emptyState unknownTopicDelivery true rfl rfl

/-! ## Claim C10: relay response masking -/

/-- C10: for every authenticated webhook handled by the relay route the
response has status 200, a relayed field equal to true, and a shop field equal
to the shop domain with a trailing .myshopify.com suffix replaced by three
asterisks; consequently the shop field never ends in .myshopify.com, so a full
myshopify domain never appears there. -/
theorem relay_response_masks_shop (topic shop : String)
    (outcome : Except String Unit) :
    (relayAction topic shop outcome).1.status = 200
    ∧ (relayAction topic shop outcome).1.relayed = true
    ∧ (relayAction topic shop outcome).1.shop = maskShop shop
    ∧ strEndsWith (relayAction topic shop outcome).1.shop ".myshopify.com"
        = false := by
  refine ⟨rfl, rfl, rfl, ?_⟩
  exact maskShop_not_myshopify shop

/-! ## Claim C3: post-persistence failures never surface -/

/-- C3: a webhook that reaches successful persistence is acknowledged 200 even
when mapping finds no event or the publish fails, and the relay dispatch is an
asynchronous call bounded by the 1500 ms timeout whose failure is only logged,
never propagated: the route response is 200 for every fetch outcome and an
error string reaches only the log. -/
theorem persisted_failure_never_surfaces (st : GatewayState) (d : Delivery)
    (busOk : Bool) (topic shop : String) (outcome : Except String Unit)
    (e : String) :
    (processWebhook st d true busOk).2.status = 200
    ∧ (processWebhook st d true busOk).2.success = true
    ∧ (relayAction topic shop outcome).1.status = 200
    ∧ (callAndForget outcome).timeoutMs = relayTimeoutMs
    ∧ (callAndForget (Except.error e)).loggedErrors
        = ["API call failed: " ++ e] := by
  refine ⟨?_, ?_, rfl, rfl, rfl⟩
  · cases hf : findById st.store d.webhook_id with
    | some v => simp [processWebhook, hf]
    | none =>
      cases hm : mapTopic d.topic with
      | none => simp [processWebhook, hf, hm]
      | some ev => cases busOk <;> simp [processWebhook, hf, hm]
  · cases hf : findById st.store d.webhook_id with
    | some v => simp [processWebhook, hf]
    | none =>
      cases hm : mapTopic d.topic with
      | none => simp [processWebhook, hf, hm]
      | some ev => cases busOk <;> simp [processWebhook, hf, hm]

/-! ## Claim C1: idempotency of repeated deliveries -/

/-- C1: any positive number of deliveries of the identical webhook, whatever
the bus outcomes, leaves exactly one stored row for the delivery id, publishes
at most one domain event, answers every delivery with the 200 success
acknowledgment, and every delivery after the first changes nothing. -/
theorem idempotent_deliveries (d : Delivery) (b : Bool) (bs : List Bool) :
    ((processRepeated d emptyState (b :: bs)).1.store.filter
      (fun e => e.webhook_id == d.webhook_id)).length = 1
    ∧ (processRepeated d emptyState (b :: bs)).1.events.length ≤ 1
    ∧ (processRepeated d emptyState (b :: bs)).2.all
        (fun r => r.status == 200 && r.success) = true
    ∧ (processRepeated d (processWebhook emptyState d true b).1 bs).1
        = (processWebhook emptyState d true b).1 := by
  obtain ⟨v, hwid, hstore, hev, hst, hsc⟩ := first_delivery_fresh d b
  have hfind : findById (processWebhook emptyState d true b).1.store
      d.webhook_id = some v := by
    rw [hstore]
    simp [findById, List.find?, hwid]
  have hstable := processRepeated_stable d
    (processWebhook emptyState d true b).1 bs v hfind
  have hrun : processRepeated d emptyState (b :: bs) =
      ((processWebhook emptyState d true b).1,
        (processWebhook emptyState d true b).2 ::
          List.replicate bs.length
            { status := 200, success := true, webhook_id := some v.id }) := by
    simp [processRepeated, hstable]
  refine ⟨?_, ?_, ?_, ?_⟩
  · rw [hrun]
    simp [hstore, List.filter, hwid]
  · rw [hrun]
    exact hev
  · rw [hrun]
    simp [List.all_eq_true, List.mem_replicate, hst, hsc]
  · rw [hstable]

/-! ## Claim C6: direct-ingress status contract -/

/-- C6 counterexample: the claim asserts an oversized body yields 400; per the
README error table (PAYLOAD_TOO_LARGE) the status is 413, shown here at an
explicit oversized request. -/
theorem oversized_body_status_refuted :
    directIngressStatus oversizedRequest = 413
    ∧ directIngressStatus oversizedRequest ≠ 400 := by
  decide

/-- C6 amended: the direct-ingress status contract is 200 on success or
duplicate, 400 on missing headers or wrong content type, 401 on signature
failure, and 413 — not 400 — on an oversized body. -/
theorem direct_ingress_status_contract (r : IngressRequest) :
    (r.contentTypeJson = true → r.bodySize ≤ bodyLimitBytes →
      r.hasAllHeaders = true → r.signatureValid = true →
      r.payloadWellFormed = true → directIngressStatus r = 200)
    ∧ (r.contentTypeJson = false → directIngressStatus r = 400)
    ∧ (r.contentTypeJson = true → r.bodySize > bodyLimitBytes →
      directIngressStatus r = 413)
    ∧ (r.contentTypeJson = true → r.bodySize ≤ bodyLimitBytes →
      r.hasAllHeaders = false → directIngressStatus r = 400)
    ∧ (r.contentTypeJson = true → r.bodySize ≤ bodyLimitBytes →
      r.hasAllHeaders = true → r.signatureValid = false →
      directIngressStatus r = 401) := by
  refine ⟨?_, ?_, ?_, ?_, ?_⟩
  · intro h1 h2 h3 h4 h5
    simp [directIngressStatus, h1, h3, h4, h5, Nat.not_lt.mpr h2]
  · intro h1
    simp [directIngressStatus, h1]
  · intro h1 h2
    simp [directIngressStatus, h1, h2]
  · intro h1 h2 h3
    simp [directIngressStatus, h1, h3, Nat.not_lt.mpr h2]
  · intro h1 h2 h3 h4
    simp [directIngressStatus, h1, h3, h4, Nat.not_lt.mpr h2]

/-- Witness for direct_ingress_status_contract: a fully well-formed request is
answered 200 and one failing only the signature is answered 401. -/
theorem direct_ingress_status_contract_witness :
    directIngressStatus
      { contentTypeJson := true, bodySize := 100, hasAllHeaders := true,
        signatureValid := true, payloadWellFormed := true } = 200
    ∧ directIngressStatus
      { contentTypeJson := true, bodySize := 100, hasAllHeaders := true,
        signatureValid := false, payloadWellFormed := true } = 401 :=
  ⟨(direct_ingress_status_contract _).1 rfl (by decide) rfl rfl rfl,
   (direct_ingress_status_contract _).2.2.2.2 rfl (by decide) rfl rfl⟩

/-! ## Claim C8: circuit breaker state machine -/

/-- C8: the per-subject breaker follows CLOSED to OPEN to HALF_OPEN to
CLOSED — it opens when at least half of the last N attempts in the sliding
window failed, while OPEN every publish short-circuits to the dead-letter
path with an action independent of the bus, after the cooldown exactly one
trial call runs in the half-open condition, and that trial closes the breaker
on success and reopens it on failure. -/
theorem breaker_state_machine (cfg : BreakerConfig) :
    (∀ (w : List Bool) (busOk : Bool),
      tripsOpen cfg ((busOk :: w).take cfg.windowSize) = true →
      breakerStep cfg (.closed w) busOk =
        (.opened cfg.cooldown, .attempted busOk))
    ∧ (∀ (k : Nat) (busOk : Bool),
      breakerStep cfg (.opened (k+1)) busOk = (.opened k, .shortCircuit))
    ∧ (∀ bs : List Bool, bs.length = cfg.cooldown →
      breakerRun cfg (.opened cfg.cooldown) bs =
        (.opened 0, List.replicate cfg.cooldown .shortCircuit))
    ∧ (∀ busOk : Bool,
      breakerStep cfg (.opened 0) busOk = breakerStep cfg .halfOpen busOk)
    ∧ breakerStep cfg .halfOpen true = (.closed [], .attempted true)
    ∧ breakerStep cfg .halfOpen false =
        (.opened cfg.cooldown, .attempted false) := by
  refine ⟨?_, ?_, ?_, ?_, rfl, rfl⟩
  · intro w busOk h
    simp [breakerStep, h]
  · intro k busOk
    rfl
  · intro bs h
    rw [← h]
    exact breakerRun_cooldown cfg bs
  · intro busOk
    rfl

/-- Witness for breaker_state_machine at window size four and cooldown two: a
fourth failure trips the breaker, an open breaker short-circuits, and two
attempts later the cooldown has elapsed with every attempt short-circuited. -/
theorem breaker_state_machine_witness :
    breakerStep { windowSize := 4, cooldown := 2 }
      (.closed [false, false, true]) false = (.opened 2, .attempted false)
    ∧ breakerStep { windowSize := 4, cooldown := 2 } (.opened 1) true =
        (.opened 0, .shortCircuit)
    ∧ breakerRun { windowSize := 4, cooldown := 2 } (.opened 2) [true, false] =
        (.opened 0, List.replicate 2 .shortCircuit) :=
  ⟨(breaker_state_machine { windowSize := 4, cooldown := 2 }).1
      [false, false, true] false (by decide),
   (breaker_state_machine { windowSize := 4, cooldown := 2 }).2.1 0 true,
   (breaker_state_machine { windowSize := 4, cooldown := 2 }).2.2.1
      [true, false] (by decide)⟩

/-! ## Claim C9: correlation identifier freshness -/

/-- C9 counterexample: two relays of the identical originating webhook
delivery carry different correlation identifiers, so the identifier in the
relayed request — and hence in the published event — is freshly generated at
the relay hop rather than propagated from the originating ingress delivery,
which would force the two to coincide. -/
theorem correlation_id_propagation_refuted :
    (addWebhookHeaders "a.myshopify.com" (some "wh-1") (some "orders/create")
        1).correlationId
      ≠ (addWebhookHeaders "a.myshopify.com" (some "wh-1")
        (some "orders/create") 2).correlationId := by
  decide

/-- C9 amended: the correlation identifier of a relayed webhook is freshly
generated by the BFF at each relay call — it is a function of the fresh
randomness alone, identical across different webhook ids under the same
randomness — and from the relay onward the webhook service propagates the
delivered correlation id unchanged into the published event. -/
theorem correlation_id_fresh_at_relay (shop : String)
    (wid wid2 topic : Option String) (seed : Nat) (st : GatewayState)
    (d : Delivery) (ev : String)
    (hnew : findById st.store d.webhook_id = none)
    (hmap : mapTopic d.topic = some ev) :
    (addWebhookHeaders shop wid topic seed).correlationId
      = generateCorrelationId seed
    ∧ (addWebhookHeaders shop wid topic seed).correlationId
      = (addWebhookHeaders shop wid2 topic seed).correlationId
    ∧ (processWebhook st d true true).1.events =
        { name := ev, shop_domain := d.shop_domain, payload := d.payload,
          correlation_id := d.correlation_id } :: st.events := by
  refine ⟨rfl, rfl, ?_⟩
  simp [processWebhook, hnew, hmap]

/-- Witness for correlation_id_fresh_at_relay at a concrete relay and the
concrete order delivery processed from the empty state. -/
theorem correlation_id_fresh_at_relay_witness :
    (addWebhookHeaders "a.myshopify.com" (some "wh-1") (some "orders/create")
        7).correlationId = generateCorrelationId 7
    ∧ (addWebhookHeaders "a.myshopify.com" (some "wh-1")
        (some "orders/create") 7).correlationId
      = (addWebhookHeaders "a.myshopify.com" (some "wh-2")
        (some "orders/create") 7).correlationId
    ∧ (processWebhook emptyState orderDelivery true true).1.events =
        { name := "order_created", shop_domain := orderDelivery.shop_domain,
          payload := orderDelivery.payload,
          correlation_id := orderDelivery.correlation_id } :: [] :=
  correlation_id_fresh_at_relay "a.myshopify.com" (some "wh-1")
    (some "wh-2") (some "orders/create") 7 emptyState orderDelivery
    "order_created" rfl rfl

end GlamApp
